import Mathlib

/-!
Verification of `server/services/guardrails/validation/pydantic_validator.py`.

The module defines a result record `ValidationResult` whose constructor
normalizes absent error/warning arguments with the Python expression
`errors or []`, and a `PydanticValidator` with two static methods
`validate_agent_input` / `validate_agent_output` that ignore their payload
and return `ValidationResult(valid=True)`.

Python runtime values are shallowly embedded as `PyValue`; Python
truthiness as `truthy`; the short-circuiting `x or y` expression as
`pyOr`.  `ValidationResult.init` embeds `ValidationResult.__init__`
(all three parameters explicit; the Python default values
`valid=True, errors=None, warnings=None` are the named constants below,
and `ValidationResult.initNoArgs` is the zero-argument call).
-/

/-- Shallow embedding of the Python runtime values that can be passed to
the functions of this module: `None`, booleans, integers, strings, lists
and dicts. -/
inductive PyValue : Type where
  | none : PyValue
  | bool : Bool → PyValue
  | int : Int → PyValue
  | str : String → PyValue
  | list : List PyValue → PyValue
  | dict : List (PyValue × PyValue) → PyValue

/-- Python truthiness: `None`, `False`, `0`, `""`, `[]` and `{}` are
falsy; every other embedded value is truthy. -/
def truthy : PyValue → Bool
  | PyValue.none => false
  | PyValue.bool b => b
  | PyValue.int n => n != 0
  | PyValue.str s => s != ""
  | PyValue.list xs => !xs.isEmpty
  | PyValue.dict es => !es.isEmpty

/-- Python `a or b`: `a` when `a` is truthy, otherwise `b`. -/
def pyOr (a b : PyValue) : PyValue :=
  if truthy a then a else b

/-- Field record underlying the Python class `ValidationResult`.  All
three fields hold arbitrary runtime values, as Python enforces no types
on attributes. -/
structure ValidationResult : Type where
  valid : PyValue
  errors : PyValue
  warnings : PyValue

/-- Python default value of the `valid` parameter of
`ValidationResult.__init__`: `True`. -/
def ValidationResult.validDefault : PyValue := PyValue.bool true

/-- Python default value of the `errors` parameter of
`ValidationResult.__init__`: `None`. -/
def ValidationResult.errorsDefault : PyValue := PyValue.none

/-- Python default value of the `warnings` parameter of
`ValidationResult.__init__`: `None`. -/
def ValidationResult.warningsDefault : PyValue := PyValue.none

/-- Embedding of `ValidationResult.__init__`:
`self.valid = valid`, `self.errors = errors or []`,
`self.warnings = warnings or []`. -/
def ValidationResult.init (valid errors warnings : PyValue) : ValidationResult :=
  ValidationResult.mk valid (pyOr errors (PyValue.list [])) (pyOr warnings (PyValue.list []))

/-- The call `ValidationResult()` with every parameter at its Python
default. -/
def ValidationResult.initNoArgs : ValidationResult :=
  ValidationResult.init ValidationResult.validDefault
    ValidationResult.errorsDefault ValidationResult.warningsDefault

/-- Embedding of the static method `PydanticValidator.validate_agent_input`:
its body is `return ValidationResult(valid=True)`, independent of
`input_data`. -/
def PydanticValidator.validate_agent_input (input_data : PyValue) : ValidationResult :=
  ValidationResult.init (PyValue.bool true)
    ValidationResult.errorsDefault ValidationResult.warningsDefault

/-- Embedding of the static method `PydanticValidator.validate_agent_output`:
its body is `return ValidationResult(valid=True)`, independent of
`output_data`. -/
def PydanticValidator.validate_agent_output (output_data : PyValue) : ValidationResult :=
  ValidationResult.init (PyValue.bool true)
    ValidationResult.errorsDefault ValidationResult.warningsDefault

/-- Recognizer for embedded Python lists (the only sequence value the
constructor ever produces itself). -/
def isPyList : PyValue → Bool
  | PyValue.list _ => true
  | _ => false

/-- Encoding of the declared contract of the `errors` / `warnings`
parameters, `sequence | absent`: an absent argument is Python `None`, a
present one is a list. -/
def optListToPy : Option (List PyValue) → PyValue
  | Option.none => PyValue.none
  | Option.some xs => PyValue.list xs

/-- A `pyOr`-normalized contract-conforming argument is always a list. -/
theorem isPyList_pyOr_optList (o : Option (List PyValue)) :
    isPyList (pyOr (optListToPy o) (PyValue.list [])) = true := by
  cases o with
  | none => rfl
  | some xs =>
    cases xs with
    | nil => rfl
    | cons x xs => rfl

/-- C1: for every payload `p`, both `validate_agent_input p` and
`validate_agent_output p` return a result whose `valid` field is the
Python boolean `True`. -/
theorem validate_agent_valid_true (p : PyValue) :
    (PydanticValidator.validate_agent_input p).valid = PyValue.bool true ∧
    (PydanticValidator.validate_agent_output p).valid = PyValue.bool true :=
  ⟨rfl, rfl⟩

/-- C2: for every payload `p`, the results of `validate_agent_input p`
and `validate_agent_output p` have empty `errors` and empty `warnings`
sequences. -/
theorem validate_agent_no_errors_or_warnings (p : PyValue) :
    (PydanticValidator.validate_agent_input p).errors = PyValue.list [] ∧
    (PydanticValidator.validate_agent_input p).warnings = PyValue.list [] ∧
    (PydanticValidator.validate_agent_output p).errors = PyValue.list [] ∧
    (PydanticValidator.validate_agent_output p).warnings = PyValue.list [] :=
  ⟨rfl, rfl, rfl, rfl⟩

/-- C3: `ValidationResult()` with no arguments yields
`valid=True, errors=[], warnings=[]`. -/
theorem validationResult_no_args_default :
    ValidationResult.initNoArgs.valid = PyValue.bool true ∧
    ValidationResult.initNoArgs.errors = PyValue.list [] ∧
    ValidationResult.initNoArgs.warnings = PyValue.list [] :=
  ⟨rfl, rfl, rfl⟩

/-- C4 counterexample: the claim that errors/warnings of any constructed
result are always iterable sequences fails at `errors = 5`, a truthy
integer: `5 or []` evaluates to `5`, so the constructed result stores the
integer `5` in `errors`, which is not a sequence. -/
theorem validationResult_nonsequence_errors_cex :
    (ValidationResult.init (PyValue.bool true) (PyValue.int 5) PyValue.none).errors
      = PyValue.int 5 ∧
    isPyList (ValidationResult.init (PyValue.bool true) (PyValue.int 5)
      PyValue.none).errors = false :=
  ⟨rfl, rfl⟩

/-- C4 amended: an absent (`None`) `errors` or `warnings` argument
normalizes to the empty list rather than a null marker, and whenever both
arguments conform to the declared contract (`None` or a list), the
constructed result's `errors` and `warnings` fields are lists. -/
theorem validationResult_sequence_args_fields (v : PyValue)
    (es ws : Option (List PyValue)) :
    (ValidationResult.init v PyValue.none (optListToPy ws)).errors = PyValue.list [] ∧
    (ValidationResult.init v (optListToPy es) PyValue.none).warnings = PyValue.list [] ∧
    isPyList (ValidationResult.init v (optListToPy es) (optListToPy ws)).errors = true ∧
    isPyList (ValidationResult.init v (optListToPy es) (optListToPy ws)).warnings = true :=
  ⟨rfl, rfl, isPyList_pyOr_optList es, isPyList_pyOr_optList ws⟩

/-- C5: both validate functions are total: for every payload they return
the definite `ValidationResult` with `valid=True` and empty error and
warning lists; the embedding is a total Lean function into
`ValidationResult` (no `Option`/`Except`), as the Python bodies contain
no failing operation. -/
theorem validate_agent_total (p : PyValue) :
    PydanticValidator.validate_agent_input p =
      ValidationResult.mk (PyValue.bool true) (PyValue.list []) (PyValue.list []) ∧
    PydanticValidator.validate_agent_output p =
      ValidationResult.mk (PyValue.bool true) (PyValue.list []) (PyValue.list []) :=
  ⟨rfl, rfl⟩

/-- C6: for any two payloads `p` and `q`, each validate function returns
equal results on `p` and on `q`: the output is independent of the payload,
and the embedding is a pure function, so calls share no state. -/
theorem validate_agent_payload_independent (p q : PyValue) :
    PydanticValidator.validate_agent_input p = PydanticValidator.validate_agent_input q ∧
    PydanticValidator.validate_agent_output p = PydanticValidator.validate_agent_output q :=
  ⟨rfl, rfl⟩

/-- C7: the constructor does not cross-check `valid` against `errors`:
calling it with `valid=True` and the non-empty list `["err"]` yields a
result with `valid=True` and a non-empty `errors` list. -/
theorem validationResult_valid_errors_not_crosschecked :
    (ValidationResult.init (PyValue.bool true)
      (PyValue.list [PyValue.str "err"]) PyValue.none).valid = PyValue.bool true ∧
    (ValidationResult.init (PyValue.bool true)
      (PyValue.list [PyValue.str "err"]) PyValue.none).errors
      = PyValue.list [PyValue.str "err"] ∧
    (ValidationResult.init (PyValue.bool true)
      (PyValue.list [PyValue.str "err"]) PyValue.none).errors ≠ PyValue.list [] := by
  refine ⟨rfl, rfl, ?_⟩
  intro h
  have h2 : ([PyValue.str "err"] : List PyValue) = [] := by injection h
  exact List.noConfusion h2

/-- C8: `validate_agent_input` and `validate_agent_output` are
extensionally equal: on every payload the two results agree on `valid`,
`errors` and `warnings`. -/
theorem validate_agent_input_output_agree (p : PyValue) :
    (PydanticValidator.validate_agent_input p).valid
      = (PydanticValidator.validate_agent_output p).valid ∧
    (PydanticValidator.validate_agent_input p).errors
      = (PydanticValidator.validate_agent_output p).errors ∧
    (PydanticValidator.validate_agent_input p).warnings
      = (PydanticValidator.validate_agent_output p).warnings :=
  ⟨rfl, rfl, rfl⟩

/-- C9: the constructor normalizes `errors` and `warnings` by Python
truthiness: a truthy argument is stored unchanged, a falsy one becomes
the empty list; and the claim's falsy values `None`, `[]`, `0`, `""`,
`False` are indeed falsy. -/
theorem validationResult_truthiness_normalization (v e w : PyValue) :
    (ValidationResult.init v e w).errors = (if truthy e then e else PyValue.list []) ∧
    (ValidationResult.init v e w).warnings = (if truthy w then w else PyValue.list []) ∧
    truthy PyValue.none = false ∧
    truthy (PyValue.list []) = false ∧
    truthy (PyValue.int 0) = false ∧
    truthy (PyValue.str "") = false ∧
    truthy (PyValue.bool false) = false :=
  ⟨rfl, rfl, rfl, by decide, by decide, by decide, rfl⟩

/-- C10: the constructor stores whatever value is passed as `valid`
unchanged, with no boolean coercion or type check. -/
theorem validationResult_valid_uncoerced (v e w : PyValue) :
    (ValidationResult.init v e w).valid = v :=
  rfl
